import Mathlib

/-!
Verification of the nexical/agent worker runtime against its specification.

The repository ships the architecture documents, skill guides and example
worker classes; the example code embedded here is translated directly from
the TypeScript sources (WatcherAgent.run, FileSyncAgent.tick, EchoProcessor,
runSupervisorExample). Runtime classes whose implementation is not in the
repository files (JobExecutor, JobPoller, AgentSupervisor internals) are
modelled from the specification text, and each such definition says so in
its doc comment.

Payloads, results and job records are embedded as association lists of
string fields; booleans and timestamps are rendered as strings in this
embedding.
-/

namespace Agent

/-- A structured JSON-object value: a list of named string fields. -/
abbrev JsonObj := List (String × String)

/-- Error taxonomy of the runtime (spec section 7): payload shape mismatch,
handler raised, unresolvable job type, transient network failure, and a
401 or 403 authentication failure. -/
inductive AgentError where
  | ValidationError (msg : String)
  | HandlerError (msg : String)
  | CapabilityMismatch
  | NetworkError
  | AuthError
  deriving DecidableEq, Repr

/-- A discrete job fetched from the orchestrator: identity, job type and an
opaque payload (the runtime never mutates it except to attach the outcome). -/
structure Job where
  id : String
  jobType : String
  payload : JsonObj
  deriving DecidableEq, Repr

/-- The result of executing one job: completed with the handler result, or
failed with an error. -/
inductive Outcome where
  | Completed (result : JsonObj)
  | Failed (err : AgentError)
  deriving DecidableEq, Repr

/-- A handler descriptor: the job type string, the declared payload shape
(a validator returning the typed payload or nothing on mismatch), and the
process function, which returns a result or raises (Except.error carries the
raised message). -/
structure HandlerDescriptor where
  jobType : String
  payloadShape : JsonObj → Option JsonObj
  process : JsonObj → Except String JsonObj

/-- EchoSchema from src/.skills/registry-discovery/examples/EchoProcessor.ts:
z.object with a required string field named message; unknown keys are
stripped (the zod default). -/
def EchoSchema (raw : JsonObj) : Option JsonObj :=
  match List.lookup "message" raw with
  | some m => some [("message", m)]
  | none => none

/-- EchoProcessor from src/.skills/registry-discovery/examples/EchoProcessor.ts:
jobType echo-test, schema EchoSchema; process echoes the message back with a
success flag and a wall-clock timestamp, which this embedding takes as the
parameter processedAt. -/
def EchoProcessor (processedAt : String) : HandlerDescriptor :=
  { jobType := "echo-test"
    payloadShape := EchoSchema
    process := fun payload =>
      match List.lookup "message" payload with
      | some m =>
          Except.ok [("success", "true"), ("echoed", m), ("processedAt", processedAt)]
      | none => Except.error "missing message" }

/-- Modelled from the spec: JobExecutor.execute (spec section 4.3) is not
among the repository files, only its documentation. Steps, following the
spec text: validate the payload against the declared shape and, on failure,
return a failed outcome carrying a ValidationError without invoking the
handler; otherwise invoke the handler once with the typed payload, wrapping
a normal return as Completed and a raised error as a HandlerError failure.
The second component counts how many times the process function ran, the
side-effect counter the spec asks tests to observe. -/
def Executor.execute (d : HandlerDescriptor) (job : Job) : Outcome × Nat :=
  match d.payloadShape job.payload with
  | none => (Outcome.Failed (AgentError.ValidationError "payload shape mismatch"), 0)
  | some typed =>
      match d.process typed with
      | Except.ok result => (Outcome.Completed result, 1)
      | Except.error msg => (Outcome.Failed (AgentError.HandlerError msg), 1)

/-- The handler registry (spec section 4.1): a static list of handler
descriptors; resolve finds the descriptor registered for a job type. -/
structure Registry where
  handlers : List HandlerDescriptor

/-- Registry.resolve: the first descriptor whose jobType matches, or none. -/
def Registry.resolve (r : Registry) (t : String) : Option HandlerDescriptor :=
  r.handlers.find? (fun d => d.jobType == t)

/-- A call the Poller issues on the Gateway to report a job outcome. -/
inductive GatewayCall where
  | complete (jobId : String) (result : JsonObj)
  | fail (jobId : String) (err : AgentError)
  deriving DecidableEq, Repr

/-- Modelled from the spec: the JobPoller handling of one received job (spec
section 4.4) — the JobPoller implementation is not among the repository
files, only its documentation. Resolve the job type against the registry:
if unresolved, report fail with CapabilityMismatch immediately and return to
Polling without executing; otherwise run Executor.execute and report
complete or fail according to the outcome, then return to Polling. Returns
the gateway report calls issued, whether the poller returns to the Polling
state, and how many times the handler process function ran. -/
def Poller.handleJob (reg : Registry) (j : Job) : List GatewayCall × Bool × Nat :=
  match reg.resolve j.jobType with
  | none => ([GatewayCall.fail j.id AgentError.CapabilityMismatch], true, 0)
  | some d =>
      match Executor.execute d j with
      | (Outcome.Completed r, n) => ([GatewayCall.complete j.id r], true, n)
      | (Outcome.Failed e, n) => ([GatewayCall.fail j.id e], true, n)

/-- Modelled from the spec: the handler of end-to-end scenario A — the
Registry resolves the type echo to a handler that returns the echoed
message. (The in-repo EchoProcessor example uses the job type echo-test and
returns extra fields; scenario A postulates this handler, and registry
population is external to the core.) -/
def scenarioEchoHandler : HandlerDescriptor :=
  { jobType := "echo"
    payloadShape := EchoSchema
    process := fun payload =>
      match List.lookup "message" payload with
      | some m => Except.ok [("echoed", m)]
      | none => Except.error "missing message" }

/-- The registry of the end-to-end scenarios: exactly one handler, for the
job type echo. -/
def scenarioRegistry : Registry := ⟨[scenarioEchoHandler]⟩

/-! ## FileSyncAgent (src/.skills/implement-processor/SKILL.md, example code)

The tick method scans for changes and uploads them; the whole body after the
opening log line sits in a try/catch whose catch logs the failure and
returns. The file system and the SDK are the environment: scan is the result
of scanForChanges (a list of changed files, or a raised message), upload is
the per-file result of the storage upload call. -/

/-- FileSyncConfig from the example: source directory, bucket name, optional
interval override. -/
structure FileSyncConfig where
  sourceDir : String
  bucketName : String
  intervalMs : Option Nat
  deriving DecidableEq, Repr

/-- The for loop of FileSyncAgent.tick: log each file, then upload it; a
raised upload error escapes the loop (to the catch). On success returns the
log lines of the loop. -/
def FileSyncAgent.uploadAll (upload : String → Except String Unit) :
    List String → Except String (List String)
  | [] => Except.ok []
  | f :: rest =>
      match upload f with
      | Except.error e => Except.error e
      | Except.ok _ =>
          match FileSyncAgent.uploadAll upload rest with
          | Except.error e => Except.error e
          | Except.ok ls => Except.ok (("Syncing file: " ++ f) :: ls)

/-- The try block of FileSyncAgent.tick (lines 160 to 175 of the example):
scan for changes; if none, log and return; else upload each change and log
the success count. Any raised error propagates out of this block. -/
def FileSyncAgent.tickTry (scan : Except String (List String))
    (upload : String → Except String Unit) : Except String (List String) :=
  match scan with
  | Except.error e => Except.error e
  | Except.ok changes =>
      if changes.length = 0 then Except.ok ["No changes detected. Skipping sync."]
      else
        match FileSyncAgent.uploadAll upload changes with
        | Except.error e => Except.error e
        | Except.ok logs =>
            Except.ok (logs ++
              ["Successfully synced " ++ toString changes.length ++ " files."])

/-- FileSyncAgent.tick (src/.skills/implement-processor/SKILL.md lines 155
to 182): the opening log line, then the try block; the catch clause maps any
raised error to a logged failure line and a normal return. The result type
is Except because an async method may reject; tick itself never does. -/
def FileSyncAgent.tick (cfg : FileSyncConfig) (scan : Except String (List String))
    (upload : String → Except String Unit) : Except String (List String) :=
  let header := "Starting sync tick for " ++ cfg.sourceDir ++ " -> " ++ cfg.bucketName
  match FileSyncAgent.tickTry scan upload with
  | Except.ok logs => Except.ok (header :: logs)
  | Except.error e => Except.ok (header :: ["Sync tick failed: " ++ e])

/-! ## WatcherAgent.run (src/.skills/implement-persistent/SKILL.md lines 79
to 98)

The persistent tick loop: while the running flag holds, attempt tick inside
try/catch (an error is logged and never propagated), then, if still running,
await the full setTimeout wait of intervalMs — a plain promise nothing can
interrupt. Time is modelled in milliseconds with zero-duration ticks; the
external stop request is the predicate stopBy, true at every instant from
the moment the stop arrives (stop sets the running flag, read at the two
check points of the loop body). -/

/-- The observable state of one WatcherAgent.run loop: current time, how
many tick invocations were attempted, how many tick errors were caught and
logged, and whether the loop is still running. -/
structure RunState where
  time : Nat
  ticksAttempted : Nat
  errorsLogged : Nat
  running : Bool
  deriving DecidableEq, Repr

/-- The state at the top of WatcherAgent.run, right after running := true. -/
def initialRunState : RunState := ⟨0, 0, 0, true⟩

/-- One iteration of the while loop of WatcherAgent.run. Checks the running
flag (false once a stop request arrived); attempts tick, whose result for
the k-th attempt is tickResult k, catching and logging an error; re-checks
the flag; if still running, waits the full intervalMs — the setTimeout
promise is not interruptible, so the wait always adds the whole interval. -/
def runStep (intervalMs : Nat) (tickResult : Nat → Except String Unit)
    (stopBy : Nat → Bool) (s : RunState) : RunState :=
  if s.running = false then s
  else if stopBy s.time then { s with running := false }
  else
    let s1 :=
      match tickResult s.ticksAttempted with
      | Except.ok _ => { s with ticksAttempted := s.ticksAttempted + 1 }
      | Except.error _ =>
          { s with ticksAttempted := s.ticksAttempted + 1,
                   errorsLogged := s.errorsLogged + 1 }
    if stopBy s1.time then { s1 with running := false }
    else { s1 with time := s1.time + intervalMs }

/-- n iterations of the WatcherAgent.run while loop. -/
def runSteps (intervalMs : Nat) (tickResult : Nat → Except String Unit)
    (stopBy : Nat → Bool) : Nat → RunState → RunState
  | 0, s => s
  | n + 1, s => runSteps intervalMs tickResult stopBy n (runStep intervalMs tickResult stopBy s)

/-- A tick that throws on every invocation. -/
def throwingTick : Nat → Except String Unit := fun _ => Except.error "tick failure"

/-- A tick that returns normally on every invocation. -/
def okTick : Nat → Except String Unit := fun _ => Except.ok ()

/-- A stop request that never arrives. -/
def neverStop : Nat → Bool := fun _ => false

/-- A stop request arriving at time 1 ms (true at every instant from 1 on). -/
def stopAtOne : Nat → Bool := fun t => decide (1 ≤ t)

/-! ## AgentSupervisor

The AgentSupervisor implementation is not among the repository files; its
documentation (src/unnamed/part_000 section 3.1) and its in-repo caller
runSupervisorExample (src/unnamed/part_001 lines 167 to 176) are. The
caller constructs the supervisor with a configuration carrying entryPoint,
maxRestarts = 10 and restartDelay = 5000 — so the supervisor surface has a
restart ceiling parameter, and the production-ready example sets it. -/

/-- The configuration runSupervisorExample passes to AgentSupervisor:
the child entry point, the maximum number of restarts, and the restart
backoff delay in milliseconds. -/
structure SupervisorConfig where
  entryPoint : String
  maxRestarts : Nat
  restartDelay : Nat
  deriving DecidableEq, Repr

/-- The concrete configuration of runSupervisorExample
(src/unnamed/part_001 lines 168 to 172). -/
def exampleSupervisorConfig : SupervisorConfig :=
  { entryPoint := "./dist/runtime/executor.js", maxRestarts := 10, restartDelay := 5000 }

/-- A supervised process record: the worker name (the restart-tracking
key), its restart count, and whether a live child process exists. -/
structure ProcessRecord where
  workerName : String
  restartCount : Nat
  alive : Bool
  deriving DecidableEq, Repr

/-- Modelled from the spec and the in-repo caller: the exit-monitoring
reaction of AgentSupervisor to an unexpected child exit. The architecture
document says crashed children are automatically restarted after a 5-second
backoff unless the supervisor is shutting down; the caller configures the
supervisor with maxRestarts, a restart ceiling, so a respawn happens only
while the restart count is below it. Returns the updated record and the
backoff delay waited before the respawn (none when the child is not
respawned). -/
def AgentSupervisor.onChildExit (cfg : SupervisorConfig) (shuttingDown : Bool)
    (r : ProcessRecord) : ProcessRecord × Option Nat :=
  if !shuttingDown && r.restartCount < cfg.maxRestarts then
    ({ r with restartCount := r.restartCount + 1, alive := true }, some cfg.restartDelay)
  else
    ({ r with alive := false }, none)

/-- The supervisor state shutdown acts on: the stopping flag, the child
records, and the log of graceful-stop signals sent (each entry one signal
to the named child). -/
structure SupervisorState where
  shuttingDown : Bool
  children : List ProcessRecord
  signalsSent : List String
  deriving DecidableEq, Repr

/-- Modelled from the spec: AgentSupervisor shutdown (spec section 4.6) —
the implementation is not among the repository files. On a first
termination signal the supervisor marks itself stopping, sends one
graceful-stop signal to each live child and terminates them; a second
signal while already stopping is a no-op. The function is total: no
exception is raised from any state. -/
def AgentSupervisor.shutdown (s : SupervisorState) : SupervisorState :=
  if s.shuttingDown then s
  else
    { shuttingDown := true
      children := s.children.map (fun r => { r with alive := false })
      signalsSent := s.signalsSent ++
        (s.children.filter (fun r => r.alive)).map (fun r => r.workerName) }

/-! ## Job Poller polling loop (spec sections 4.2 and 4.4)

The JobPoller implementation is not among the repository files; the loop
below is modelled from the spec. Each element of the input list is the
result of one Gateway.poll call; the trace records the report calls issued,
the backoff delays waited, how many poll calls were issued, whether the
poller is still in the Polling state at the end, and the process exit code
it signals (zero while healthy). -/

/-- The result of one Gateway.poll call (spec section 4.2): a job, no job
available, a transient network error, or an authentication failure (a 401
or 403 response). -/
inductive PollResult where
  | job (j : Job)
  | noJobAvailable
  | networkError
  | authError
  deriving DecidableEq, Repr

/-- The observable trace of a poller run. -/
structure PollerTrace where
  calls : List GatewayCall
  delays : List Nat
  pollsIssued : Nat
  stillPolling : Bool
  exitCode : Nat
  deriving DecidableEq, Repr

/-- Modelled from the spec: the exponential-backoff delay before poll retry
attempt number a (zero-based), doubling from base and capped at cap. -/
def backoffDelay (base cap a : Nat) : Nat :=
  min (base * 2 ^ a) cap

/-- The list of the n successive backoff delays starting at attempt a. -/
def backoffDelays (base cap a : Nat) : Nat → List Nat
  | 0 => []
  | n + 1 => backoffDelay base cap a :: backoffDelays base cap (a + 1) n

/-- Modelled from the spec: the JobPoller polling loop (spec section 4.4),
consuming successive poll results with the current retry attempt counter.
NoJobAvailable loops straight back to Polling (resetting the attempt
counter); NetworkError waits the exponential-backoff delay for the current
attempt and retries the poll call alone, reporting no job outcome;
a received Job is handled by Poller.handleJob and its report issued, then
polling resumes; AuthError is fatal — the poller stops polling, issues no
further poll call and signals the outer process to exit non-zero. -/
def Poller.runPollsAux (reg : Registry) (base cap attempt : Nat) :
    List PollResult → PollerTrace
  | [] => ⟨[], [], 0, true, 0⟩
  | r :: rest =>
      match r with
      | PollResult.authError => ⟨[], [], 1, false, 1⟩
      | PollResult.networkError =>
          let t := Poller.runPollsAux reg base cap (attempt + 1) rest
          ⟨t.calls, backoffDelay base cap attempt :: t.delays,
            t.pollsIssued + 1, t.stillPolling, t.exitCode⟩
      | PollResult.noJobAvailable =>
          let t := Poller.runPollsAux reg base cap 0 rest
          ⟨t.calls, t.delays, t.pollsIssued + 1, t.stillPolling, t.exitCode⟩
      | PollResult.job j =>
          let t := Poller.runPollsAux reg base cap 0 rest
          ⟨(Poller.handleJob reg j).1 ++ t.calls, t.delays,
            t.pollsIssued + 1, t.stillPolling, t.exitCode⟩

/-- The full poller run, starting at retry attempt zero. -/
def Poller.runPolls (reg : Registry) (base cap : Nat) (rs : List PollResult) :
    PollerTrace :=
  Poller.runPollsAux reg base cap 0 rs

/-- The result of one Gateway.complete or Gateway.fail call. -/
inductive CallResult where
  | ok
  | networkError
  | authError
  deriving DecidableEq, Repr

/-- How one reporting step ends. -/
inductive ReportStatus where
  | reported
  | unreportable
  | fatalAuth
  deriving DecidableEq, Repr

/-- Modelled from the spec: reporting an outcome with a bounded retry
budget (spec section 4.4). A network error consumes one unit of budget and
retries; an exhausted budget makes the outcome unreportable (logged, not
papered over); an authentication failure on the report call is fatal. -/
def Poller.reportWithRetry (budget : Nat) : List CallResult → ReportStatus
  | [] => ReportStatus.unreportable
  | r :: rest =>
      match r with
      | CallResult.ok => ReportStatus.reported
      | CallResult.authError => ReportStatus.fatalAuth
      | CallResult.networkError =>
          match budget with
          | 0 => ReportStatus.unreportable
          | b + 1 => Poller.reportWithRetry b rest

/-- Helper: while no stop request has arrived, every iteration of the
WatcherAgent.run loop keeps the loop running and attempts exactly one tick,
whatever each tick invocation returns or throws. -/
theorem runSteps_count_of_no_stop (intervalMs : Nat)
    (tickResult : Nat → Except String Unit) (stopBy : Nat → Bool)
    (hstop : ∀ t, stopBy t = false) :
    ∀ (n : Nat) (s : RunState), s.running = true →
      (runSteps intervalMs tickResult stopBy n s).running = true ∧
      (runSteps intervalMs tickResult stopBy n s).ticksAttempted =
        s.ticksAttempted + n := by
  intro n
  induction n with
  | zero => exact fun s hs => ⟨hs, rfl⟩
  | succ n ih =>
    intro s hs
    have hstep : (runStep intervalMs tickResult stopBy s).running = true ∧
        (runStep intervalMs tickResult stopBy s).ticksAttempted =
          s.ticksAttempted + 1 := by
      cases h : tickResult s.ticksAttempted <;> simp [runStep, hs, hstop, h]
    have hrest := ih (runStep intervalMs tickResult stopBy s) hstep.1
    have heq : runSteps intervalMs tickResult stopBy (n + 1) s =
        runSteps intervalMs tickResult stopBy n (runStep intervalMs tickResult stopBy s) := rfl
    rw [heq, hrest.2, hstep.2]
    exact ⟨hrest.1, by omega⟩

end Agent

namespace Agent

/-- Claim C1: for every job whose payload is rejected by the resolved
handler, Executor.execute returns a failed outcome carrying a
ValidationError and the handler process function is never invoked (the
side-effect counter stays at zero). -/
theorem executor_validation_failure_no_handler
    (d : HandlerDescriptor) (job : Job)
    (h : d.payloadShape job.payload = none) :
    Executor.execute d job =
      (Outcome.Failed (AgentError.ValidationError "payload shape mismatch"), 0) := by
  unfold Executor.execute
  rw [h]

/-- Witness for C1: the EchoProcessor schema rejects a payload without a
message field, and execute returns the ValidationError outcome with zero
handler invocations. -/
theorem executor_validation_failure_no_handler_witness :
    (EchoProcessor "t0").payloadShape [("wrong", "x")] = none ∧
    Executor.execute (EchoProcessor "t0") ⟨"j9", "echo-test", [("wrong", "x")]⟩ =
      (Outcome.Failed (AgentError.ValidationError "payload shape mismatch"), 0) :=
  ⟨rfl, executor_validation_failure_no_handler (EchoProcessor "t0")
    ⟨"j9", "echo-test", [("wrong", "x")]⟩ rfl⟩

/-- Claim C3: for every handler execution that returns normally, the
Completed outcome is exactly the handler return value with no modification,
and the Poller then issues Gateway.complete with the job id and that exact
value as its only report call (exactly once). -/
theorem poller_completes_with_exact_result
    (reg : Registry) (j : Job) (d : HandlerDescriptor) (typed result : JsonObj)
    (hres : reg.resolve j.jobType = some d)
    (hval : d.payloadShape j.payload = some typed)
    (hrun : d.process typed = Except.ok result) :
    Executor.execute d j = (Outcome.Completed result, 1) ∧
    Poller.handleJob reg j = ([GatewayCall.complete j.id result], true, 1) := by
  have hex : Executor.execute d j = (Outcome.Completed result, 1) := by
    simp only [Executor.execute, hval, hrun]
  refine ⟨hex, ?_⟩
  simp only [Poller.handleJob, hres, hex]

/-- Witness for C3, end-to-end scenario A: the job j1 of type echo with the
message hi is resolved to the scenario echo handler, and the Poller calls
Gateway.complete on j1 with exactly the echoed result, exactly once. -/
theorem poller_completes_with_exact_result_witness :
    scenarioRegistry.resolve "echo" = some scenarioEchoHandler ∧
    Poller.handleJob scenarioRegistry ⟨"j1", "echo", [("message", "hi")]⟩ =
      ([GatewayCall.complete "j1" [("echoed", "hi")]], true, 1) :=
  ⟨rfl, (poller_completes_with_exact_result scenarioRegistry
      ⟨"j1", "echo", [("message", "hi")]⟩ scenarioEchoHandler
      [("message", "hi")] [("echoed", "hi")] rfl rfl rfl).2⟩

/-- Claim C6: for every job the Poller receives whose jobType does not
resolve to any registered handler, the Poller issues Gateway.fail for that
job id with CapabilityMismatch as its only gateway call, invokes no handler
(the invocation counter is zero), and returns to the Polling state. -/
theorem poller_capability_mismatch
    (reg : Registry) (j : Job)
    (h : reg.resolve j.jobType = none) :
    Poller.handleJob reg j =
      ([GatewayCall.fail j.id AgentError.CapabilityMismatch], true, 0) := by
  unfold Poller.handleJob
  rw [h]

/-- Witness for C6, end-to-end scenario B: the job j2 of type unknown-type
has no registered handler; the Poller calls Gateway.fail on j2 with
CapabilityMismatch, invokes no handler, and resumes polling. -/
theorem poller_capability_mismatch_witness :
    scenarioRegistry.resolve "unknown-type" = none ∧
    Poller.handleJob scenarioRegistry ⟨"j2", "unknown-type", []⟩ =
      ([GatewayCall.fail "j2" AgentError.CapabilityMismatch], true, 0) :=
  ⟨rfl, poller_capability_mismatch scenarioRegistry ⟨"j2", "unknown-type", []⟩ rfl⟩

/-- Claim C2: in the WatcherAgent.run tick loop, every error thrown by a
tick invocation is caught and logged without stopping the loop or
propagating (with no stop request the loop is still running after any
number of iterations, having attempted one tick per iteration, for every
tick behavior); the loop exits only after a stop request set running to
false; and with tickIntervalMs = 1000 and a tick that throws on every
invocation, the six iterations covering the first 5 seconds (tick attempts
start at 0, 1000, ..., 5000 ms) leave the loop still running with 6
attempted ticks — within the approximately-5-plus-or-minus-1 band — every
one of whose errors was caught and logged. -/
theorem watcher_loop_survives_tick_errors :
    (∀ (intervalMs : Nat) (tickResult : Nat → Except String Unit) (n : Nat),
        (runSteps intervalMs tickResult neverStop n initialRunState).running = true ∧
        (runSteps intervalMs tickResult neverStop n initialRunState).ticksAttempted = n) ∧
    (∀ (intervalMs : Nat) (tickResult : Nat → Except String Unit)
        (stopBy : Nat → Bool) (n : Nat),
        (runSteps intervalMs tickResult stopBy n initialRunState).running = false →
        ∃ t, stopBy t = true) ∧
    runSteps 1000 throwingTick neverStop 6 initialRunState = ⟨6000, 6, 6, true⟩ ∧
    4 ≤ (runSteps 1000 throwingTick neverStop 6 initialRunState).ticksAttempted ∧
    (runSteps 1000 throwingTick neverStop 6 initialRunState).ticksAttempted ≤ 6 := by
  refine ⟨?_, ?_, by decide, by decide, by decide⟩
  · intro intervalMs tickResult n
    have h := runSteps_count_of_no_stop intervalMs tickResult neverStop
      (fun _ => rfl) n initialRunState rfl
    exact ⟨h.1, by simpa [initialRunState] using h.2⟩
  · intro intervalMs tickResult stopBy n h
    by_contra hno
    push_neg at hno
    have hstop : ∀ t, stopBy t = false := by
      intro t
      have := hno t
      simpa using this
    have hrun := (runSteps_count_of_no_stop intervalMs tickResult stopBy hstop n
      initialRunState rfl).1
    rw [h] at hrun
    exact Bool.false_ne_true hrun

/-- Counterexample to claim C5: with intervalMs = 60000 and a stop request
arriving at time 1 ms — during the first between-ticks wait, which runs
from 0 to 60000 ms — the loop does not exit early. The wait in
WatcherAgent.run is a plain awaited setTimeout promise, so after one
iteration the loop is still in flight at time 60000 with the stop request
long pending, and it exits only at the next check of the running flag, at
time 60000: 59999 ms after the stop request, the whole remaining interval. -/
theorem watcher_stop_does_not_preempt_wait_cex :
    stopAtOne 1 = true ∧
    runSteps 60000 okTick stopAtOne 1 initialRunState = ⟨60000, 1, 0, true⟩ ∧
    runSteps 60000 okTick stopAtOne 2 initialRunState = ⟨60000, 1, 0, false⟩ := by
  refine ⟨by decide, by decide, by decide⟩

/-- Claim C5 as amended: a stop request does not pre-empt the between-ticks
wait. Once an iteration passes the pre-wait check of the running flag, the
full tickIntervalMs elapses and the loop is still in flight afterwards,
regardless of any stop request arriving during the wait; the stop is
honored only at the next check of the flag, where the loop exits with no
further wait — so shutdown can be delayed by up to one full tick
interval, but never more than one. -/
theorem watcher_full_wait_then_stop
    (intervalMs : Nat) (tickResult : Nat → Except String Unit) (stopBy : Nat → Bool)
    (s : RunState) (hrun : s.running = true) (hstop : stopBy s.time = false) :
    ((runStep intervalMs tickResult stopBy s).time = s.time + intervalMs ∧
      (runStep intervalMs tickResult stopBy s).running = true) ∧
    (∀ s2 : RunState, s2.running = true → stopBy s2.time = true →
      runStep intervalMs tickResult stopBy s2 = { s2 with running := false }) := by
  constructor
  · cases h : tickResult s.ticksAttempted <;> simp [runStep, hrun, hstop, h]
  · intro s2 h2 hstop2
    simp [runStep, h2, hstop2]

/-- Witness for the amended C5: from the initial state with interval 60000
and the stop arriving at time 1, the first iteration still waits the whole
interval (time 60000, loop in flight). -/
theorem watcher_full_wait_then_stop_witness :
    (runStep 60000 okTick stopAtOne initialRunState).time = 0 + 60000 ∧
    (runStep 60000 okTick stopAtOne initialRunState).running = true :=
  (watcher_full_wait_then_stop 60000 okTick stopAtOne initialRunState rfl
    (by decide)).1

/-- Claim C10: FileSyncAgent.tick is total over its error branch — for
every configuration and every tick invocation, any error raised while
scanning for changes or syncing files is caught inside tick itself and
logged, so tick always returns normally and never propagates an exception
to the surrounding loop. The try block itself does propagate a raised scan
or upload error; the catch of tick maps it to the logged failure line and a
normal return. -/
theorem fileSync_tick_never_propagates :
    (∀ (cfg : FileSyncConfig) (scan : Except String (List String))
        (upload : String → Except String Unit),
        ∃ logs, FileSyncAgent.tick cfg scan upload = Except.ok logs) ∧
    (∀ (cfg : FileSyncConfig) (e : String) (upload : String → Except String Unit),
        FileSyncAgent.tickTry (Except.error e) upload = Except.error e ∧
        FileSyncAgent.tick cfg (Except.error e) upload =
          Except.ok [("Starting sync tick for " ++ cfg.sourceDir ++ " -> " ++
            cfg.bucketName), "Sync tick failed: " ++ e]) ∧
    (∀ (cfg : FileSyncConfig) (f : String) (rest : List String)
        (upload : String → Except String Unit) (e : String),
        upload f = Except.error e →
        FileSyncAgent.tick cfg (Except.ok (f :: rest)) upload =
          Except.ok [("Starting sync tick for " ++ cfg.sourceDir ++ " -> " ++
            cfg.bucketName), "Sync tick failed: " ++ e]) := by
  refine ⟨?_, ?_, ?_⟩
  · intro cfg scan upload
    cases h : FileSyncAgent.tickTry scan upload with
    | error e =>
        exact ⟨("Starting sync tick for " ++ cfg.sourceDir ++ " -> " ++
          cfg.bucketName) :: ["Sync tick failed: " ++ e],
          by simp [FileSyncAgent.tick, h]⟩
    | ok logs =>
        exact ⟨("Starting sync tick for " ++ cfg.sourceDir ++ " -> " ++
          cfg.bucketName) :: logs,
          by simp [FileSyncAgent.tick, h]⟩
  · exact fun cfg e upload => ⟨rfl, rfl⟩
  · intro cfg f rest upload e h
    simp [FileSyncAgent.tick, FileSyncAgent.tickTry, FileSyncAgent.uploadAll, h]

/-- Counterexample to claim C4: the Supervisor does have a restart-count
ceiling. With the configuration of runSupervisorExample (maxRestarts = 10),
a worker whose process exits unexpectedly after 10 prior restarts — the
Supervisor not shutting down — is not respawned: no backoff delay is
waited and the record is left dead, so the worker is permanently abandoned
after a finite number of crashes. -/
theorem supervisor_restart_ceiling_cex :
    AgentSupervisor.onChildExit exampleSupervisorConfig false ⟨"watcher", 10, false⟩ =
      (⟨"watcher", 10, false⟩, none) := rfl

/-- Claim C4 as amended: when a child process exits unexpectedly while the
Supervisor is not shutting down, the Supervisor respawns it after the fixed
configured backoff delay only while its restart count is below the
configured maxRestarts ceiling (10 in the production example); once the
count reaches the ceiling the worker is not respawned, and no respawn ever
happens while the Supervisor is shutting down. -/
theorem supervisor_restart_below_ceiling (cfg : SupervisorConfig) (r : ProcessRecord) :
    (r.restartCount < cfg.maxRestarts →
      AgentSupervisor.onChildExit cfg false r =
        ({ r with restartCount := r.restartCount + 1, alive := true },
          some cfg.restartDelay)) ∧
    (cfg.maxRestarts ≤ r.restartCount →
      AgentSupervisor.onChildExit cfg false r = ({ r with alive := false }, none)) ∧
    AgentSupervisor.onChildExit cfg true r = ({ r with alive := false }, none) := by
  refine ⟨fun h => ?_, fun h => ?_, ?_⟩
  · simp [AgentSupervisor.onChildExit, h]
  · simp [AgentSupervisor.onChildExit, Nat.not_lt.mpr h]
  · simp [AgentSupervisor.onChildExit]

/-- Claim C9: Supervisor shutdown is idempotent. From every supervisor
state, calling shutdown twice yields the same terminal state as calling it
once — in particular the log of termination signals sent to children is
identical, so no duplicate signals are sent — and a second termination
signal received while already stopping is a no-op. shutdown is a total
function, so no exception is raised from any state. -/
theorem supervisor_shutdown_idempotent :
    (∀ s : SupervisorState,
      AgentSupervisor.shutdown (AgentSupervisor.shutdown s) =
        AgentSupervisor.shutdown s) ∧
    (∀ s : SupervisorState, s.shuttingDown = true → AgentSupervisor.shutdown s = s) := by
  constructor
  · intro s
    cases h : s.shuttingDown <;> simp [AgentSupervisor.shutdown, h]
  · intro s h
    simp [AgentSupervisor.shutdown, h]

/-- Helper: a run of n consecutive NetworkError poll results, entered at
retry attempt a, issues n poll calls, reports nothing, waits the successive
backoff delays for attempts a, a + 1, ..., and leaves the loop polling. -/
theorem runPollsAux_networkErrors (reg : Registry) (base cap : Nat) :
    ∀ (n a : Nat),
      Poller.runPollsAux reg base cap a (List.replicate n PollResult.networkError) =
        ⟨[], backoffDelays base cap a n, n, true, 0⟩ := by
  intro n
  induction n with
  | zero => intro a; rfl
  | succ n ih =>
      intro a
      simp [List.replicate_succ, Poller.runPollsAux, ih, backoffDelays]

/-- Claim C7: when Gateway.poll returns NetworkError, the Poller retries
the poll call alone with exponential backoff — any run of consecutive
network failures reports no job outcome at all, leaves the loop polling,
and waits the successive doubling delays, which are capped at cap, weakly
increasing, and strictly increasing while below the cap; in particular
after three consecutive NetworkError results followed by NoJobAvailable
(scenario D, base delay 1000 ms, cap 30000 ms) the loop waited the
increasing delays 1000, 2000, 4000, reported no outcome and is still
polling. -/
theorem poller_network_error_backoff :
    (∀ (reg : Registry) (base cap n : Nat),
      Poller.runPolls reg base cap (List.replicate n PollResult.networkError) =
        ⟨[], backoffDelays base cap 0 n, n, true, 0⟩) ∧
    (∀ (base cap a : Nat),
      backoffDelay base cap a ≤ cap ∧
      backoffDelay base cap a ≤ backoffDelay base cap (a + 1) ∧
      (0 < base → base * 2 ^ (a + 1) ≤ cap →
        backoffDelay base cap a < backoffDelay base cap (a + 1))) ∧
    Poller.runPolls scenarioRegistry 1000 30000
        [PollResult.networkError, PollResult.networkError, PollResult.networkError,
          PollResult.noJobAvailable] =
      ⟨[], [1000, 2000, 4000], 4, true, 0⟩ := by
  refine ⟨?_, ?_, by decide⟩
  · intro reg base cap n
    exact runPollsAux_networkErrors reg base cap n 0
  · intro base cap a
    unfold backoffDelay
    refine ⟨min_le_right _ _, ?_, ?_⟩
    · have h : base * 2 ^ a ≤ base * 2 ^ (a + 1) :=
        Nat.mul_le_mul_left _ (Nat.pow_le_pow_right (by norm_num) (Nat.le_succ a))
      exact min_le_min h (le_refl cap)
    · intro hb hcap
      have h1 : base * 2 ^ a < base * 2 ^ (a + 1) :=
        mul_lt_mul_of_pos_left (Nat.pow_lt_pow_succ (by norm_num)) hb
      have hle : base * 2 ^ a ≤ cap := le_trans (le_of_lt h1) hcap
      rw [min_eq_left hle, min_eq_left hcap]
      exact h1

/-- Helper: the first AuthError poll result ends the poller run — the
poll that surfaced it is the last poll issued, the poller leaves the
Polling state and signals exit code 1, whatever comes after. -/
theorem runPollsAux_auth_stops (reg : Registry) (base cap : Nat)
    (post : List PollResult) :
    ∀ (pre : List PollResult) (a : Nat), PollResult.authError ∉ pre →
      (Poller.runPollsAux reg base cap a
          (pre ++ PollResult.authError :: post)).stillPolling = false ∧
      (Poller.runPollsAux reg base cap a
          (pre ++ PollResult.authError :: post)).exitCode = 1 ∧
      (Poller.runPollsAux reg base cap a
          (pre ++ PollResult.authError :: post)).pollsIssued = pre.length + 1 := by
  intro pre
  induction pre with
  | nil => exact fun a _ => ⟨rfl, rfl, rfl⟩
  | cons r rest ih =>
      intro a h
      have hrest : PollResult.authError ∉ rest := fun he => h (List.mem_cons_of_mem _ he)
      cases r with
      | authError => exact absurd (List.mem_cons_self _ _) h
      | networkError =>
          have hr := ih (a + 1) hrest
          refine ⟨?_, ?_, ?_⟩ <;>
            simp [List.cons_append, Poller.runPollsAux, hr.1, hr.2.1, hr.2.2]
      | noJobAvailable =>
          have hr := ih 0 hrest
          refine ⟨?_, ?_, ?_⟩ <;>
            simp [List.cons_append, Poller.runPollsAux, hr.1, hr.2.1, hr.2.2]
      | job j =>
          have hr := ih 0 hrest
          refine ⟨?_, ?_, ?_⟩ <;>
            simp [List.cons_append, Poller.runPollsAux, hr.1, hr.2.1, hr.2.2]

/-- Claim C8: a Gateway call surfacing an AuthError is fatal to the Poller.
When a poll call returns AuthError after any AuthError-free prefix, the
poller stops polling permanently — it issues no poll call beyond the one
that surfaced the AuthError, whatever poll results would have followed —
and signals the outer process to exit with the non-zero status 1; and an
AuthError on a report call ends reporting as fatal immediately, for every
retry budget. -/
theorem poller_auth_error_fatal (reg : Registry) (base cap : Nat)
    (pre post : List PollResult) (hpre : PollResult.authError ∉ pre) :
    (Poller.runPolls reg base cap
        (pre ++ PollResult.authError :: post)).stillPolling = false ∧
    (Poller.runPolls reg base cap
        (pre ++ PollResult.authError :: post)).exitCode = 1 ∧
    (Poller.runPolls reg base cap
        (pre ++ PollResult.authError :: post)).pollsIssued = pre.length + 1 ∧
    (∀ (budget : Nat) (rest : List CallResult),
      Poller.reportWithRetry budget (CallResult.authError :: rest) =
        ReportStatus.fatalAuth) := by
  have h := runPollsAux_auth_stops reg base cap post pre 0 hpre
  exact ⟨h.1, h.2.1, h.2.2, fun budget rest => by simp [Poller.reportWithRetry]⟩

/-- Witness for C8: after the AuthError-free prefix of one NetworkError and
one NoJobAvailable, an AuthError poll result stops the poller with exit
code 1 after exactly 3 poll calls, even though another poll result follows. -/
theorem poller_auth_error_fatal_witness :
    PollResult.authError ∉ [PollResult.networkError, PollResult.noJobAvailable] ∧
    (Poller.runPolls scenarioRegistry 1000 30000
        ([PollResult.networkError, PollResult.noJobAvailable] ++
          PollResult.authError :: [PollResult.noJobAvailable])).stillPolling = false ∧
    (Poller.runPolls scenarioRegistry 1000 30000
        ([PollResult.networkError, PollResult.noJobAvailable] ++
          PollResult.authError :: [PollResult.noJobAvailable])).exitCode = 1 ∧
    (Poller.runPolls scenarioRegistry 1000 30000
        ([PollResult.networkError, PollResult.noJobAvailable] ++
          PollResult.authError :: [PollResult.noJobAvailable])).pollsIssued = 3 := by
  have h := poller_auth_error_fatal scenarioRegistry 1000 30000
    [PollResult.networkError, PollResult.noJobAvailable] [PollResult.noJobAvailable]
    (by decide)
  exact ⟨by decide, h.1, h.2.1, h.2.2.1⟩

end Agent
